import Mathlib

/-!
gles2sdl2: a verification development for `src/main.cpp`.

The program opens a window, negotiates an EGL display/surface/context, builds
one GLES2 program object and runs a clear-draw-swap loop.  Everything it does
is a conversation with three external collaborators (the EGL/GLES driver, the
SDL windowing layer and the C runtime), so the embedding threads an explicit
transcript of that conversation through every function:

* `Event` is one finished call: its arguments and, when the program reads it,
  what the collaborator answered;
* `Driver` is an arbitrary collaborator: every answer may depend on the whole
  transcript so far and on the arguments of the call;
* each C++ function becomes a Lean function taking the transcript so far and
  returning the extended transcript together with its C++ result.

Handles and GL names are natural numbers, `GLint`/`EGLint` are integers, and
a `float` is the rational number it denotes, with every `float` operation
rounded as IEEE 754 binary32 prescribes.
-/

namespace Gles2Sdl2

/-! ## Types and constants of the external headers -/

/-- An opaque pointer-sized handle (`EGLDisplay`, `EGLSurface`, `HWND`, ...). -/
abbrev Handle := Nat
/-- The C type `EGLint`. -/
abbrev EGLint := Int
/-- The C type `EGLBoolean` (an unsigned integer tested against zero). -/
abbrev EGLBoolean := Nat
/-- The C type `GLuint`. -/
abbrev GLuint := Nat
/-- The C type `GLint`. -/
abbrev GLint := Int
/-- The C type `GLenum`. -/
abbrev GLenum := Nat

abbrev EGL_FALSE : EGLBoolean := 0
abbrev EGL_TRUE : EGLBoolean := 1
/-- `EGL_NO_DISPLAY` is `((EGLDisplay)0)` in `EGL/egl.h`. -/
abbrev EGL_NO_DISPLAY : Handle := 0
/-- `EGL_NO_CONTEXT` is `((EGLContext)0)` in `EGL/egl.h`. -/
abbrev EGL_NO_CONTEXT : Handle := 0
/-- `EGL_NO_SURFACE` is `((EGLSurface)0)` in `EGL/egl.h`. -/
abbrev EGL_NO_SURFACE : Handle := 0
abbrev EGL_NONE : EGLint := 0x3038
abbrev EGL_DONT_CARE : EGLint := -1
abbrev EGL_CONTEXT_CLIENT_VERSION : EGLint := 0x3098
abbrev EGL_RED_SIZE : EGLint := 0x3024
abbrev EGL_GREEN_SIZE : EGLint := 0x3023
abbrev EGL_BLUE_SIZE : EGLint := 0x3022
abbrev EGL_ALPHA_SIZE : EGLint := 0x3021
abbrev EGL_DEPTH_SIZE : EGLint := 0x3025
abbrev EGL_STENCIL_SIZE : EGLint := 0x3026
abbrev EGL_SAMPLE_BUFFERS : EGLint := 0x3032
abbrev EGL_POST_SUB_BUFFER_SUPPORTED_NV : EGLint := 0x30BE

abbrev GL_FALSE : GLint := 0
abbrev GL_TRUE : GLint := 1
abbrev GL_FRAGMENT_SHADER : GLenum := 0x8B30
abbrev GL_VERTEX_SHADER : GLenum := 0x8B31
abbrev GL_COMPILE_STATUS : GLenum := 0x8B81
abbrev GL_LINK_STATUS : GLenum := 0x8B82
abbrev GL_INFO_LOG_LENGTH : GLenum := 0x8B84
abbrev GL_VENDOR : GLenum := 0x1F00
abbrev GL_RENDERER : GLenum := 0x1F01
abbrev GL_VERSION : GLenum := 0x1F02
abbrev GL_EXTENSIONS : GLenum := 0x1F03
abbrev GL_FLOAT : GLenum := 0x1406
abbrev GL_TRIANGLES : GLenum := 0x0004
abbrev GL_DEPTH_BUFFER_BIT : Nat := 0x00000100
abbrev GL_COLOR_BUFFER_BIT : Nat := 0x00004000

abbrev SDL_QUIT : Nat := 0x100
abbrev SDL_KEYDOWN : Nat := 0x300
abbrev SDL_WINDOWPOS_UNDEFINED : Int := 0x1FFF0000
abbrev SDL_WINDOW_SHOWN : Nat := 0x00000004

abbrev WINDOW_WIDTH : Int := 640
abbrev WINDOW_HEIGHT : Int := 480

/-! ## The transcript -/

/-- One finished call to a collaborator.  Arguments come first; the fields
named `ret`, `config`, `numConfig` and `value` are what the collaborator
answered (`none` for an output location it left untouched).  Calls whose
result the program never reads carry no answer.  For `SDL_PollEvent`, `ret`
is the returned flag and `evType` the `type` member of the event it wrote
(0, and never read, when `ret` is 0). -/
inductive Event where
  | SDL_CreateWindow (title : String) (x y w h : Int) (flags : Nat) (ret : Handle)
  | SDL_GetWindowWMInfo (window : Handle) (ret : Nat) (hWnd : Handle)
  | SDL_PollEvent (ret : Nat) (evType : Nat)
  | GetDC (hWnd : Handle) (ret : Handle)
  | eglGetDisplay (displayId : Handle) (ret : Handle)
  | eglInitialize (dpy : Handle) (ret : EGLBoolean)
  | eglGetConfigs (dpy : Handle) (configSize : EGLint) (ret : EGLBoolean)
  | eglChooseConfig (dpy : Handle) (attribList : List EGLint) (configSize : EGLint)
      (ret : EGLBoolean) (config : Option Handle) (numConfig : Option EGLint)
  | eglCreateWindowSurface (dpy config win : Handle) (attribList : List EGLint) (ret : Handle)
  | eglCreateContext (dpy config shareContext : Handle) (attribList : List EGLint) (ret : Handle)
  | eglMakeCurrent (dpy draw read ctx : Handle) (ret : EGLBoolean)
  | eglSwapBuffers (dpy surface : Handle)
  | eglDestroyContext (dpy ctx : Handle)
  | eglDestroySurface (dpy surface : Handle)
  | eglTerminate (dpy : Handle)
  | glGetString (name : GLenum)
  | glGetError (ret : GLenum)
  | glCreateShader (shaderType : GLenum) (ret : GLuint)
  | glShaderSource (shader : GLuint) (source : String)
  | glCompileShader (shader : GLuint)
  | glGetShaderiv (shader : GLuint) (pname : GLenum) (value : Option GLint)
  | glGetShaderInfoLog (shader : GLuint) (bufSize : GLint)
  | glDeleteShader (shader : GLuint)
  | glCreateProgram (ret : GLuint)
  | glAttachShader (program shader : GLuint)
  | glLinkProgram (program : GLuint)
  | glGetProgramiv (program : GLuint) (pname : GLenum) (value : Option GLint)
  | glGetProgramInfoLog (program : GLuint) (bufSize : GLint)
  | glDeleteProgram (program : GLuint)
  | glGetAttribLocation (program : GLuint) (name : String) (ret : GLint)
  | glViewport (x y w h : Int)
  | glClearColor (r g b a : ℚ)
  | glClear (mask : Nat)
  | glUseProgram (program : GLuint)
  | glVertexAttribPointer (index : GLuint) (size : GLint) (type : GLenum)
      (normalized : GLint) (stride : Int) (data : List ℚ)
  | glEnableVertexAttribArray (index : GLuint)
  | glDrawArrays (mode : GLenum) (first count : Int)
  | malloc (size : Int) (ret : Handle)
  | free (ptr : Handle)
  | exit (rc : Int)
  deriving DecidableEq

/-- A transcript: the finished calls, oldest first. -/
abbrev Trace := List Event

/-- An arbitrary behaviour of the collaborators.  Every answer is a function of
the transcript so far and of the arguments of the call. -/
structure Driver where
  SDL_CreateWindow : Trace → Handle
  /-- Answers the `SDL_bool` result and the `info.info.win.window` field. -/
  SDL_GetWindowWMInfo : Trace → Handle → Nat × Handle
  GetDC : Trace → Handle → Handle
  eglGetDisplay : Trace → Handle → Handle
  eglInitialize : Trace → Handle → EGLBoolean
  eglGetConfigs : Trace → Handle → EGLint → EGLBoolean
  /-- Answers the result, the configuration written to `configs[0]` (if any)
  and the count written to `*num_config` (if any). -/
  eglChooseConfig : Trace → Handle → List EGLint → EGLint →
    EGLBoolean × Option Handle × Option EGLint
  eglCreateWindowSurface : Trace → Handle → Handle → Handle → List EGLint → Handle
  eglCreateContext : Trace → Handle → Handle → Handle → List EGLint → Handle
  eglMakeCurrent : Trace → Handle → Handle → Handle → Handle → EGLBoolean
  /-- The error flags the driver holds at this point, in the order
  `glGetError` reports (and clears) them; once they are used up `glGetError`
  answers `GL_NO_ERROR`. -/
  glPendingErrors : Trace → List GLenum
  glCreateShader : Trace → GLenum → GLuint
  /-- The value written to `*params`, `none` when nothing is written. -/
  glGetShaderiv : Trace → GLuint → GLenum → Option GLint
  glCreateProgram : Trace → GLuint
  /-- The value written to `*params`, `none` when nothing is written. -/
  glGetProgramiv : Trace → GLuint → GLenum → Option GLint
  glGetAttribLocation : Trace → GLuint → String → GLint
  malloc : Trace → Int → Handle
  /-- The indeterminate value held by the uninitialised local `config` of
  `CreateEGLContext` before `eglChooseConfig` writes to it. -/
  indeterminateConfig : Handle

/-! ## Context negotiation (`CreateEGLContext`, lines 32-94) -/

/-- The result of `CreateEGLContext`: the returned `EGLBoolean`, the contents
of the three output locations after the call, and the transcript. -/
structure EGLResult where
  ret : EGLBoolean
  eglDisplay : Handle
  eglContext : Handle
  eglSurface : Handle
  trace : Trace
  deriving DecidableEq

/-- `CreateEGLContext` of `src/main.cpp`.  `eglDisplay`, `eglContext` and
`eglSurface` are the contents of the three output locations on entry. -/
def CreateEGLContext (D : Driver) (t : Trace) (hWnd : Handle)
    (eglDisplay eglContext eglSurface : Handle)
    (configAttribList surfaceAttribList : List EGLint) : EGLResult :=
  let contextAttribs : List EGLint := [EGL_CONTEXT_CLIENT_VERSION, 2, EGL_NONE, EGL_NONE]
  -- Get Display
  let hdc := D.GetDC t hWnd
  let t := t ++ [Event.GetDC hWnd hdc]
  let display := D.eglGetDisplay t hdc
  let t := t ++ [Event.eglGetDisplay hdc display]
  if display = EGL_NO_DISPLAY then ⟨EGL_FALSE, eglDisplay, eglContext, eglSurface, t⟩ else
  -- Initialize EGL
  let r := D.eglInitialize t display
  let t := t ++ [Event.eglInitialize display r]
  if r = 0 then ⟨EGL_FALSE, eglDisplay, eglContext, eglSurface, t⟩ else
  -- Get configs
  let r := D.eglGetConfigs t display 0
  let t := t ++ [Event.eglGetConfigs display 0 r]
  if r = 0 then ⟨EGL_FALSE, eglDisplay, eglContext, eglSurface, t⟩ else
  -- Choose config
  let r := D.eglChooseConfig t display configAttribList 1
  let t := t ++ [Event.eglChooseConfig display configAttribList 1 r.1 r.2.1 r.2.2]
  let config := r.2.1.getD D.indeterminateConfig
  if r.1 = 0 then ⟨EGL_FALSE, eglDisplay, eglContext, eglSurface, t⟩ else
  -- Create a surface
  let surface := D.eglCreateWindowSurface t display config hWnd surfaceAttribList
  let t := t ++ [Event.eglCreateWindowSurface display config hWnd surfaceAttribList surface]
  if surface = EGL_NO_SURFACE then ⟨EGL_FALSE, eglDisplay, eglContext, eglSurface, t⟩ else
  -- Create a GL context
  let context := D.eglCreateContext t display config EGL_NO_CONTEXT contextAttribs
  let t := t ++ [Event.eglCreateContext display config EGL_NO_CONTEXT contextAttribs context]
  if context = EGL_NO_CONTEXT then ⟨EGL_FALSE, eglDisplay, eglContext, eglSurface, t⟩ else
  -- Make the context current
  let r := D.eglMakeCurrent t display surface surface context
  let t := t ++ [Event.eglMakeCurrent display surface surface context r]
  if r = 0 then ⟨EGL_FALSE, eglDisplay, eglContext, eglSurface, t⟩ else
  ⟨EGL_TRUE, display, context, surface, t⟩

/-! ## Shader and program setup (lines 98-219) -/

def gVertexShader : String :=
  "attribute vec4 vPosition;\n" ++
  "void main() \x7b\n" ++
  "  gl_Position = vPosition;\n" ++
  "\x7d\n"

def gFragmentShader : String :=
  "precision mediump float;\n" ++
  "void main() \x7b\n" ++
  "  gl_FragColor = vec4(0.0, 1.0, 0.0, 1.0);\n" ++
  "\x7d\n"

def gTriangleVertices : List ℚ := [0, 1/2, -1/2, -1/2, 1/2, -1/2]

/-- `printGLString`: one `glGetString` whose result is dropped. -/
def printGLString (t : Trace) (_name : String) (s : GLenum) : Trace :=
  t ++ [Event.glGetString s]

/-- The loop of `checkGlError`, run against the error flags the driver holds:
every iteration is one `glGetError`, and the loop ends with the first call
that answers `GL_NO_ERROR`. -/
def checkGlErrorLoop : List GLenum → Trace → Trace
  | [], t => t ++ [Event.glGetError 0]
  | error :: rest, t =>
    if error = 0 then t ++ [Event.glGetError error]
    else checkGlErrorLoop rest (t ++ [Event.glGetError error])

/-- `checkGlError`: query and drop the driver's error code until it is clear. -/
def checkGlError (D : Driver) (t : Trace) (_op : String) : Trace :=
  checkGlErrorLoop (D.glPendingErrors t) t

/-- `loadShader` of `src/main.cpp`: the returned `GLuint` and the transcript. -/
def loadShader (D : Driver) (t : Trace) (shaderType : GLenum) (pSource : String) :
    GLuint × Trace :=
  let shader := D.glCreateShader t shaderType
  let t := t ++ [Event.glCreateShader shaderType shader]
  if shader ≠ 0 then
    let t := t ++ [Event.glShaderSource shader pSource]
    let t := t ++ [Event.glCompileShader shader]
    let w := D.glGetShaderiv t shader GL_COMPILE_STATUS
    let t := t ++ [Event.glGetShaderiv shader GL_COMPILE_STATUS w]
    let compiled : GLint := w.getD 0
    if compiled = 0 then
      let w := D.glGetShaderiv t shader GL_INFO_LOG_LENGTH
      let t := t ++ [Event.glGetShaderiv shader GL_INFO_LOG_LENGTH w]
      let infoLen : GLint := w.getD 0
      if infoLen ≠ 0 then
        let buf := D.malloc t infoLen
        let t := t ++ [Event.malloc infoLen buf]
        let t := if buf ≠ 0 then
            t ++ [Event.glGetShaderInfoLog shader infoLen, Event.free buf]
          else t
        let t := t ++ [Event.glDeleteShader shader]
        (0, t)
      else (shader, t)
    else (shader, t)
  else (shader, t)

/-- `createProgram` of `src/main.cpp`: the returned `GLuint` and the transcript. -/
def createProgram (D : Driver) (t : Trace) (pVertexSource pFragmentSource : String) :
    GLuint × Trace :=
  let r := loadShader D t GL_VERTEX_SHADER pVertexSource
  let vertexShader := r.1
  let t := r.2
  if vertexShader = 0 then (0, t) else
  let r := loadShader D t GL_FRAGMENT_SHADER pFragmentSource
  let pixelShader := r.1
  let t := r.2
  if pixelShader = 0 then (0, t) else
  let program := D.glCreateProgram t
  let t := t ++ [Event.glCreateProgram program]
  if program ≠ 0 then
    let t := t ++ [Event.glAttachShader program vertexShader]
    let t := checkGlError D t "glAttachShader"
    let t := t ++ [Event.glAttachShader program pixelShader]
    let t := checkGlError D t "glAttachShader"
    let t := t ++ [Event.glLinkProgram program]
    let w := D.glGetProgramiv t program GL_LINK_STATUS
    let t := t ++ [Event.glGetProgramiv program GL_LINK_STATUS w]
    let linkStatus : GLint := w.getD GL_FALSE
    if linkStatus ≠ GL_TRUE then
      let w := D.glGetProgramiv t program GL_INFO_LOG_LENGTH
      let t := t ++ [Event.glGetProgramiv program GL_INFO_LOG_LENGTH w]
      let bufLength : GLint := w.getD 0
      let t := if bufLength ≠ 0 then
          let buf := D.malloc t bufLength
          let t := t ++ [Event.malloc bufLength buf]
          if buf ≠ 0 then
            t ++ [Event.glGetProgramInfoLog program bufLength, Event.free buf]
          else t
        else t
      let t := t ++ [Event.glDeleteProgram program]
      (0, t)
    else (program, t)
  else (program, t)

/-- The rendering context record `ESContext`. -/
structure ESContext where
  width : GLint
  height : GLint
  hWnd : Handle
  eglDisplay : Handle
  eglContext : Handle
  eglSurface : Handle
  deriving DecidableEq

/-- The mutable variables with static storage: the globals `es_context`,
`gProgram`, `gvPositionHandle` and the local static `grey` of `renderFrame`.
All of them start zero-initialised. -/
structure Globals where
  es_context : Option ESContext
  gProgram : GLuint
  gvPositionHandle : GLuint
  grey : ℚ
  deriving DecidableEq

/-- The static variables at program start. -/
def Globals.initial : Globals :=
  { es_context := none, gProgram := 0, gvPositionHandle := 0, grey := 0 }

/-- Conversion of a `GLint` to the 32-bit unsigned `GLuint`. -/
def toGLuint (i : GLint) : GLuint := (i % 2 ^ 32).toNat

/-- `setupGraphics` of `src/main.cpp`: the returned `bool`, the statics and
the transcript. -/
def setupGraphics (D : Driver) (g : Globals) (t : Trace) (w h : Int) :
    Bool × Globals × Trace :=
  let t := printGLString t "Version" GL_VERSION
  let t := printGLString t "Vendor" GL_VENDOR
  let t := printGLString t "Renderer" GL_RENDERER
  let t := printGLString t "Extensions" GL_EXTENSIONS
  let r := createProgram D t gVertexShader gFragmentShader
  let g := { g with gProgram := r.1 }
  let t := r.2
  if g.gProgram = 0 then (false, g, t) else
  let loc := D.glGetAttribLocation t g.gProgram "vPosition"
  let t := t ++ [Event.glGetAttribLocation g.gProgram "vPosition" loc]
  let g := { g with gvPositionHandle := toGLuint loc }
  let t := checkGlError D t "glGetAttribLocation"
  let t := t ++ [Event.glViewport 0 0 w h]
  let t := checkGlError D t "glViewport"
  (true, g, t)

/-! ## The frame loop (lines 221-242 and 306-322) -/

/-! ### Binary32 arithmetic

`grey` is a C++ `float`.  A `float` value is represented by the rational
number it denotes, and a `float` operation is the exact operation on
rationals followed by IEEE 754 binary32 rounding (24 significant bits, round
to nearest, ties to even).  Overflow to infinity is not represented: the
rounding below is the binary32 one for magnitudes under `2 ^ 128`, and the
grey level never reaches 2. -/

/-- The loop `while (n >= 2) { n /= 2; ++k; }`, bounded by `fuel`. -/
def log2Loop : Nat → Nat → Nat
  | 0, _ => 0
  | fuel + 1, n => if n < 2 then 0 else log2Loop fuel (n / 2) + 1

/-- The position of the leading bit of `n`, that is `⌊log₂ n⌋` for `n > 0`. -/
def log2Floor (n : Nat) : Nat := log2Loop n n

/-- The rational `2 ^ e` for an integer exponent `e`. -/
def pow2 (e : Int) : ℚ :=
  if 0 ≤ e then ((2 ^ e.toNat : Nat) : ℚ) else 1 / ((2 ^ (-e).toNat : Nat) : ℚ)

/-- The binade of a non-zero rational `q`: the integer `e` with
`2 ^ e ≤ |q| < 2 ^ (e + 1)`. -/
def binade (q : ℚ) : Int :=
  let e : Int := (log2Floor q.num.natAbs : Int) - (log2Floor q.den : Int)
  if pow2 e ≤ |q| then e else e - 1

/-- Rounding of a rational to the nearest integer, ties to the even one. -/
def roundHalfEven (q : ℚ) : Int :=
  let f := Rat.floor q
  let r := q - f
  if r < 1 / 2 then f else if 1 / 2 < r then f + 1 else if f % 2 = 0 then f else f + 1

/-- IEEE 754 binary32 rounding of a rational: the nearest multiple of the
unit in the last place of its binade (`2 ^ (e - 23)`, with `e` at least the
minimal exponent -126, which covers the subnormal numbers), ties to even. -/
def f32Round (q : ℚ) : ℚ :=
  if q = 0 then 0 else
  let e := max (binade q) (-126)
  let ulp := pow2 (e - 23)
  (roundHalfEven (q / ulp) : ℚ) * ulp

/-- Binary32 addition: the exact sum, correctly rounded. -/
def f32Add (x y : ℚ) : ℚ := f32Round (x + y)

/-- The update of the static `grey` at the top of `renderFrame`:
`grey += 0.01f; if (grey > 1.0f) grey = 0.0f;`, where `0.01f` is the binary32
number nearest to 0.01 and `+=` is binary32 addition. -/
def greyStep (grey : ℚ) : ℚ :=
  let grey := f32Add grey (f32Round (1 / 100))
  if grey > 1 then 0 else grey

/-- The grey level after `n` calls of `renderFrame`, starting from the
zero-initialised static. -/
def greyAfter : Nat → ℚ
  | 0 => 0
  | n + 1 => greyStep (greyAfter n)

/-- `renderFrame` of `src/main.cpp`. -/
def renderFrame (D : Driver) (g : Globals) (t : Trace) : Globals × Trace :=
  let g := { g with grey := greyStep g.grey }
  let t := t ++ [Event.glClearColor g.grey g.grey g.grey 1]
  let t := checkGlError D t "glClearColor"
  let t := t ++ [Event.glClear (GL_DEPTH_BUFFER_BIT ||| GL_COLOR_BUFFER_BIT)]
  let t := checkGlError D t "glClear"
  let t := t ++ [Event.glUseProgram g.gProgram]
  let t := checkGlError D t "glUseProgram"
  let t := t ++ [Event.glVertexAttribPointer g.gvPositionHandle 2 GL_FLOAT GL_FALSE 0
    gTriangleVertices]
  let t := checkGlError D t "glVertexAttribPointer"
  let t := t ++ [Event.glEnableVertexAttribArray g.gvPositionHandle]
  let t := checkGlError D t "glEnableVertexAttribArray"
  let t := t ++ [Event.glDrawArrays GL_TRIANGLES 0 3]
  let t := checkGlError D t "glDrawArrays"
  (g, t)

/-- The inner loop `while (SDL_PollEvent(&event))` run against the events that
are pending: each pending event is one call answering 1 with that event type,
and the call that finds the queue empty answers 0 and ends the loop. -/
def pollEvents : List Nat → Int → Trace → Int × Trace
  | [], done, t => (done, t ++ [Event.SDL_PollEvent 0 0])
  | evType :: rest, done, t =>
    let t := t ++ [Event.SDL_PollEvent 1 evType]
    let done := if evType = SDL_QUIT ∨ evType = SDL_KEYDOWN then 1 else done
    pollEvents rest done t

/-- The main render loop `while (!done)`.  `batches i` holds the types of the
events pending when iteration `i` polls; `fuel` bounds the number of times the
loop condition is tested, and `none` says the bound was reached.  The result
carries the number of iterations started so far. -/
def frameLoop (D : Driver) (batches : Nat → List Nat) (ctx : ESContext) :
    Nat → Nat → Int → Globals → Trace → Option (Nat × Globals × Trace)
  | 0, _, _, _, _ => none
  | fuel + 1, i, done, g, t =>
    if done ≠ 0 then some (i, g, t) else
    let r := renderFrame D g t
    let g := r.1
    let t := r.2
    let t := t ++ [Event.eglSwapBuffers ctx.eglDisplay ctx.eglSurface]
    let p := pollEvents (batches i) done t
    frameLoop D batches ctx fuel (i + 1) p.1 g p.2

/-! ## Teardown (lines 324-346) -/

/-- The three guarded release blocks applied to the record `*es_context`. -/
def releaseHandles (c : ESContext) (t : Trace) : ESContext × Trace :=
  let r : ESContext × Trace :=
    if EGL_NO_CONTEXT ≠ c.eglContext then
      ({ c with eglContext := EGL_NO_CONTEXT },
        t ++ [Event.eglDestroyContext c.eglDisplay c.eglContext])
    else (c, t)
  let c := r.1
  let t := r.2
  let r : ESContext × Trace :=
    if EGL_NO_SURFACE ≠ c.eglSurface then
      ({ c with eglSurface := EGL_NO_SURFACE },
        t ++ [Event.eglDestroySurface c.eglDisplay c.eglSurface])
    else (c, t)
  let c := r.1
  let t := r.2
  if EGL_NO_DISPLAY ≠ c.eglDisplay then
    ({ c with eglDisplay := EGL_NO_DISPLAY }, t ++ [Event.eglTerminate c.eglDisplay])
  else (c, t)

/-- The teardown block `if (es_context) ...` of `main`: release the
handles, then `delete es_context; es_context = nullptr;`. -/
def teardown (es_context : Option ESContext) (t : Trace) : Option ESContext × Trace :=
  match es_context with
  | none => (none, t)
  | some c => (none, (releaseHandles c t).2)

/-! ## `main` (lines 244-350) -/

/-- How a run of `main` ends. -/
inductive Outcome where
  /-- `SDL_assert_release(get_win_info)` failed and its handler ended the run. -/
  | assertionFailed
  /-- A `std::runtime_error` left `main`. -/
  | thrown (what : String)
  /-- `quit(rc)`, that is `exit(rc)`. -/
  | exited (rc : Int)
  deriving DecidableEq

/-- What a finished run of `main` leaves behind. -/
structure MainResult where
  outcome : Outcome
  /-- The `EGLBoolean` of `CreateEGLContext`, when the run got that far. -/
  is_context_created : Option EGLBoolean
  /-- The `bool` of `setupGraphics`, when the run got that far. -/
  setupResult : Option Bool
  /-- The number of loop iterations started. -/
  frames : Nat
  globals : Globals
  trace : Trace
  deriving DecidableEq

def configAttribList : List EGLint :=
  [EGL_RED_SIZE, 8, EGL_GREEN_SIZE, 8, EGL_BLUE_SIZE, 8, EGL_ALPHA_SIZE, 8,
   EGL_DEPTH_SIZE, EGL_DONT_CARE, EGL_STENCIL_SIZE, EGL_DONT_CARE,
   EGL_SAMPLE_BUFFERS, 0, EGL_NONE]

def surfaceAttribList : List EGLint :=
  [EGL_POST_SUB_BUFFER_SUPPORTED_NV, EGL_FALSE, EGL_NONE, EGL_NONE]

/-- The record produced by `new ESContext()`: every member value-initialised. -/
def ESContext.fresh : ESContext :=
  { width := 0, height := 0, hWnd := 0, eglDisplay := 0, eglContext := 0, eglSurface := 0 }

/-- Lines 262-297 of `main`: `es_context = new ESContext()`, the three
assignments to `width`, `height` and `hWnd`, and the call of
`CreateEGLContext` on the addresses of the record's three handle members.
Returns the result of the call and the record after it. -/
def main_createContext (D : Driver) (t : Trace) (hWnd : Handle) : EGLResult × ESContext :=
  let c := { ESContext.fresh with width := WINDOW_WIDTH, height := WINDOW_HEIGHT, hWnd := hWnd }
  -- `es_context == nullptr` is false after `new`, so nothing is thrown here
  let r := CreateEGLContext D t c.hWnd c.eglDisplay c.eglContext c.eglSurface
    configAttribList surfaceAttribList
  (r, { c with eglDisplay := r.eglDisplay, eglContext := r.eglContext,
               eglSurface := r.eglSurface })

/-- `main` of `src/main.cpp`, with `fuel` bounding the tests of the render
loop's condition (`none`: the bound was reached).  `batches i` holds the
types of the events pending when iteration `i` of the loop polls. -/
def main (D : Driver) (batches : Nat → List Nat) (fuel : Nat) : Option MainResult :=
  let g := Globals.initial
  let window := D.SDL_CreateWindow []
  let t : Trace := [Event.SDL_CreateWindow "SDL2 OpenGL ES 2" SDL_WINDOWPOS_UNDEFINED
    SDL_WINDOWPOS_UNDEFINED WINDOW_WIDTH WINDOW_HEIGHT SDL_WINDOW_SHOWN window]
  let info := D.SDL_GetWindowWMInfo t window
  let t := t ++ [Event.SDL_GetWindowWMInfo window info.1 info.2]
  if info.1 = 0 then some ⟨Outcome.assertionFailed, none, none, 0, g, t⟩ else
  let hWnd := info.2
  -- the static `es_context` is still `nullptr`, so the second assertion passes
  let n := main_createContext D t hWnd
  let c := n.2
  let g := { g with es_context := some c }
  let t := n.1.trace
  let is_context_created := n.1.ret
  if is_context_created = 0 then
    some ⟨Outcome.thrown "can't create opengl es 2.0 context", some is_context_created,
      none, 0, g, t⟩
  else
  -- the `bool` returned by `setupGraphics` is dropped by the call statement
  let s := setupGraphics D g t WINDOW_WIDTH WINDOW_HEIGHT
  let g := s.2.1
  let t := s.2.2
  match frameLoop D batches c fuel 0 0 g t with
  | none => none
  | some (frames, g, t) =>
    let d := teardown g.es_context t
    let g := { g with es_context := d.1 }
    let t := d.2 ++ [Event.exit 0]
    some ⟨Outcome.exited 0, some is_context_created, some s.1, frames, g, t⟩

/-! ## Vocabulary of the specification -/

/-- The release calls of EGL. -/
def Event.isRelease : Event → Bool
  | .eglDestroySurface _ _ => true
  | .eglDestroyContext _ _ => true
  | .eglTerminate _ => true
  | _ => false

/-- The success/failure outcome of a finished EGL negotiation call, as EGL
defines it: a handle-returning call fails by answering the empty sentinel,
a boolean call by answering `EGL_FALSE`. -/
def Event.succeeded : Event → Bool
  | .eglGetDisplay _ ret => ret != EGL_NO_DISPLAY
  | .eglInitialize _ ret => ret != EGL_FALSE
  | .eglGetConfigs _ _ ret => ret != EGL_FALSE
  | .eglChooseConfig _ _ _ ret _ _ => ret != EGL_FALSE
  | .eglCreateWindowSurface _ _ _ _ ret => ret != EGL_NO_SURFACE
  | .eglCreateContext _ _ _ _ ret => ret != EGL_NO_CONTEXT
  | .eglMakeCurrent _ _ _ _ ret => ret != EGL_FALSE
  | _ => true

/-- The ordered sequence of the specification, section 4.1: the seven calls
get-display, initialize, get-configs, choose-config, create-window-surface,
create-context (client version 2) and make-current (surface, surface,
context), each answered by the driver `D` after the calls before it, as they
would run if none of them aborted the negotiation.  `t` is the transcript on
entry, already extended by the `GetDC` call. -/
def eglSequence (D : Driver) (t : Trace) (hdc hWnd : Handle)
    (configAttribs surfaceAttribs : List EGLint) : List Event :=
  let display := D.eglGetDisplay t hdc
  let e1 := Event.eglGetDisplay hdc display
  let t := t ++ [e1]
  let e2 := Event.eglInitialize display (D.eglInitialize t display)
  let t := t ++ [e2]
  let e3 := Event.eglGetConfigs display 0 (D.eglGetConfigs t display 0)
  let t := t ++ [e3]
  let r := D.eglChooseConfig t display configAttribs 1
  let e4 := Event.eglChooseConfig display configAttribs 1 r.1 r.2.1 r.2.2
  let t := t ++ [e4]
  let config := r.2.1.getD D.indeterminateConfig
  let surface := D.eglCreateWindowSurface t display config hWnd surfaceAttribs
  let e5 := Event.eglCreateWindowSurface display config hWnd surfaceAttribs surface
  let t := t ++ [e5]
  let attribs : List EGLint := [EGL_CONTEXT_CLIENT_VERSION, 2, EGL_NONE, EGL_NONE]
  let context := D.eglCreateContext t display config EGL_NO_CONTEXT attribs
  let e6 := Event.eglCreateContext display config EGL_NO_CONTEXT attribs context
  let t := t ++ [e6]
  let e7 := Event.eglMakeCurrent display surface surface context
    (D.eglMakeCurrent t display surface surface context)
  [e1, e2, e3, e4, e5, e6, e7]

/-- How many calls of a sequence are issued when the sequence is run up to
and including its first failing call. -/
def issuedUntilFailure (steps : List Event) : Nat :=
  min steps.length ((steps.takeWhile Event.succeeded).length + 1)

/-- A driver on which every call succeeds and no GL error is ever pending. -/
def workingDriver : Driver where
  SDL_CreateWindow := fun _ => 100
  SDL_GetWindowWMInfo := fun _ _ => (1, 200)
  GetDC := fun _ _ => 300
  eglGetDisplay := fun _ _ => 1
  eglInitialize := fun _ _ => 1
  eglGetConfigs := fun _ _ _ => 1
  eglChooseConfig := fun _ _ _ _ => (1, some 5, some 1)
  eglCreateWindowSurface := fun _ _ _ _ _ => 2
  eglCreateContext := fun _ _ _ _ _ => 3
  eglMakeCurrent := fun _ _ _ _ _ => 1
  glPendingErrors := fun _ => []
  glCreateShader := fun _ ty => if ty = GL_VERTEX_SHADER then 1 else 2
  glGetShaderiv := fun _ _ pname => if pname = GL_COMPILE_STATUS then some 1 else some 0
  glCreateProgram := fun _ => 3
  glGetProgramiv := fun _ _ pname => if pname = GL_LINK_STATUS then some 1 else some 0
  glGetAttribLocation := fun _ _ _ => 0
  malloc := fun _ _ => 400
  indeterminateConfig := 7

/-- The working driver, except that `eglChooseConfig` finds no matching
configuration: as EGL prescribes for that case it answers `EGL_TRUE`, writes
no configuration and reports a count of zero. -/
def zeroMatchDriver : Driver :=
  { workingDriver with eglChooseConfig := fun _ _ _ _ => (EGL_TRUE, none, some 0) }

/-- The `glGetError` calls. -/
def Event.isGetError : Event → Bool
  | .glGetError _ => true
  | _ => false

/-- The `glGetError` calls that one `checkGlError` issues when it starts at
transcript `t`. -/
def errorChecks (D : Driver) (t : Trace) : Trace :=
  (checkGlErrorLoop (D.glPendingErrors t) t).drop t.length

/-- The working driver, except that every shader fails to compile and leaves
an empty information log: `glGetShaderiv` answers 0 both for
`GL_COMPILE_STATUS` and for `GL_INFO_LOG_LENGTH`. -/
def quietCompileFailureDriver : Driver :=
  { workingDriver with glGetShaderiv := fun _ _ _ => some 0 }

/-- The working driver, except that no program object can be created:
`glCreateProgram` answers 0. -/
def noProgramDriver : Driver :=
  { workingDriver with glCreateProgram := fun _ => 0 }

/-- The event types that set the termination flag of the render loop. -/
def isQuitRequest (evType : Nat) : Bool :=
  evType == SDL_QUIT || evType == SDL_KEYDOWN

/-- The calls that mark the progress of one loop iteration: the draw call of
`renderFrame`, the buffer swap, and every poll for an event. -/
def Event.isFrameMark : Event → Bool
  | .glDrawArrays _ _ _ => true
  | .eglSwapBuffers _ _ => true
  | .SDL_PollEvent _ _ => true
  | _ => false

/-- The marks of one complete iteration whose pending batch is `batch`: one
draw, one swap, one successful poll per pending event, and the poll that
finds the queue empty. -/
def iterationMarks (ctx : ESContext) (batch : List Nat) : Trace :=
  [Event.glDrawArrays GL_TRIANGLES 0 3, Event.eglSwapBuffers ctx.eglDisplay ctx.eglSurface] ++
    batch.map (Event.SDL_PollEvent 1) ++ [Event.SDL_PollEvent 0 0]

/-- A sample input: a mouse-motion and a window event pending in the first
iteration, a key press followed by a mouse motion in every later one. -/
def sampleBatches (i : Nat) : List Nat :=
  if i = 0 then [0x400, 0x200] else [SDL_KEYDOWN, 0x400]

/-- A sample input: a quit request pending in every iteration. -/
def quitAtOnce (_i : Nat) : List Nat := [SDL_QUIT]

/-- The working driver, except that linking fails and leaves an empty
information log: `glGetProgramiv` answers 0 both for `GL_LINK_STATUS` and for
`GL_INFO_LOG_LENGTH`. -/
def linkFailureDriver : Driver :=
  { workingDriver with glGetProgramiv := fun _ _ _ => some 0 }

/-- A sample run of `loadShader` for the vertex shader on `linkFailureDriver`. -/
def sampleVertex : GLuint × Trace :=
  loadShader linkFailureDriver [] GL_VERTEX_SHADER gVertexShader

/-- A sample run of `loadShader` for the fragment shader, after `sampleVertex`. -/
def sampleFragment : GLuint × Trace :=
  loadShader linkFailureDriver sampleVertex.2 GL_FRAGMENT_SHADER gFragmentShader

/-! ## Context negotiation -/

set_option maxHeartbeats 2000000 in
/-- C1. For every driver, the calls `CreateEGLContext` issues after `GetDC`
are the ordered sequence get-display, initialize, get-configs, choose-config,
create-window-surface, create-context (client version 2), make-current
(surface, surface, context) cut after its first failing call; the function
returns `EGL_TRUE` exactly when all seven calls succeed and `EGL_FALSE`
otherwise; and no release call is issued on any path. -/
theorem createEGLContext_runs_sequence_until_failure (D : Driver) (t : Trace)
    (hWnd eglDisplay eglContext eglSurface : Handle)
    (configAttribs surfaceAttribs : List EGLint) :
    let r := CreateEGLContext D t hWnd eglDisplay eglContext eglSurface configAttribs
      surfaceAttribs
    let hdc := D.GetDC t hWnd
    let t0 := t ++ [Event.GetDC hWnd hdc]
    let steps := eglSequence D t0 hdc hWnd configAttribs surfaceAttribs
    r.trace = t0 ++ steps.take (issuedUntilFailure steps) ∧
    (r.ret = EGL_TRUE ↔ ∀ e ∈ steps, e.succeeded = true) ∧
    (r.ret = EGL_TRUE ∨ r.ret = EGL_FALSE) ∧
    ∀ e ∈ r.trace.drop t.length, e.isRelease = false := by
  intro r hdc t0 steps
  simp only [r, steps, t0, hdc, CreateEGLContext, eglSequence, issuedUntilFailure]
  generalize D.GetDC t hWnd = hdc
  generalize D.eglGetDisplay (t ++ [Event.GetDC hWnd hdc]) hdc = display
  generalize D.eglInitialize _ display = r2
  generalize D.eglGetConfigs _ display 0 = r3
  generalize D.eglChooseConfig _ display configAttribs 1 = r4
  generalize D.eglCreateWindowSurface _ display _ hWnd surfaceAttribs = surface
  generalize D.eglCreateContext _ display _ _ _ = context
  generalize D.eglMakeCurrent _ display surface surface context = r7
  split_ifs with h1 h2 h3 h4 h5 h6 h7 <;> refine ⟨?_, ?_, ?_, ?_⟩
  all_goals first
    | (simp [Event.succeeded, List.takeWhile_cons, *]; done)
    | simp [Event.isRelease]

set_option maxHeartbeats 2000000 in
/-- C2. For every driver, after `main` has allocated the record and called
`CreateEGLContext` on it, either the call returned `EGL_FALSE` and the three
handles are still `EGL_NO_DISPLAY`, `EGL_NO_CONTEXT` and `EGL_NO_SURFACE`, or
it returned `EGL_TRUE` and all three handles differ from their sentinels and
are the answers of the driver's get-display, create-window-surface and
create-context calls of this negotiation.  In general a failing call leaves
the three output locations as they were. -/
theorem main_createContext_handles_all_or_none (D : Driver) (t : Trace) (hWnd : Handle) :
    let p := main_createContext D t hWnd
    let issued := p.1.trace.drop t.length
    ((p.1.ret = EGL_FALSE ∧ p.2.eglDisplay = EGL_NO_DISPLAY ∧
        p.2.eglContext = EGL_NO_CONTEXT ∧ p.2.eglSurface = EGL_NO_SURFACE) ∨
      (p.1.ret = EGL_TRUE ∧ p.2.eglDisplay ≠ EGL_NO_DISPLAY ∧
        p.2.eglContext ≠ EGL_NO_CONTEXT ∧ p.2.eglSurface ≠ EGL_NO_SURFACE ∧
        ∃ hdc config,
          Event.eglGetDisplay hdc p.2.eglDisplay ∈ issued ∧
          Event.eglCreateWindowSurface p.2.eglDisplay config hWnd surfaceAttribList
            p.2.eglSurface ∈ issued ∧
          Event.eglCreateContext p.2.eglDisplay config EGL_NO_CONTEXT
            [EGL_CONTEXT_CLIENT_VERSION, 2, EGL_NONE, EGL_NONE] p.2.eglContext ∈ issued)) ∧
    ∀ (d c s : Handle) (configAttribs surfaceAttribs : List EGLint),
      let r := CreateEGLContext D t hWnd d c s configAttribs surfaceAttribs
      r.ret = EGL_TRUE ∨
        (r.ret = EGL_FALSE ∧ r.eglDisplay = d ∧ r.eglContext = c ∧ r.eglSurface = s) := by
  refine ⟨?_, ?_⟩
  · simp only [main_createContext, CreateEGLContext, ESContext.fresh]
    generalize D.GetDC t hWnd = hdc
    generalize D.eglGetDisplay (t ++ [Event.GetDC hWnd hdc]) hdc = display
    generalize D.eglInitialize _ display = r2
    generalize D.eglGetConfigs _ display 0 = r3
    generalize D.eglChooseConfig _ display configAttribList 1 = r4
    generalize D.eglCreateWindowSurface _ display _ hWnd surfaceAttribList = surface
    generalize D.eglCreateContext _ display _ _ _ = context
    generalize D.eglMakeCurrent _ display surface surface context = r7
    split_ifs with h1 h2 h3 h4 h5 h6 h7
    all_goals first
      | (left; simp; done)
      | (right
         refine ⟨rfl, h1, h6, h5, hdc, r4.2.1.getD D.indeterminateConfig, ?_, ?_, ?_⟩ <;> simp)
  · intro d c s configAttribs surfaceAttribs
    simp only [CreateEGLContext]
    split_ifs <;> simp

/-- C3. On a driver whose choose-config call succeeds but reports zero
matching configurations, `CreateEGLContext` goes on with the indeterminate
configuration, creates a surface and a context and returns `EGL_TRUE`. -/
theorem createEGLContext_ignores_zero_matches :
    CreateEGLContext zeroMatchDriver [] 200 EGL_NO_DISPLAY EGL_NO_CONTEXT EGL_NO_SURFACE
        configAttribList surfaceAttribList =
      { ret := EGL_TRUE, eglDisplay := 1, eglContext := 3, eglSurface := 2,
        trace := [Event.GetDC 200 300, Event.eglGetDisplay 300 1, Event.eglInitialize 1 1,
          Event.eglGetConfigs 1 0 1,
          Event.eglChooseConfig 1 configAttribList 1 EGL_TRUE none (some 0),
          Event.eglCreateWindowSurface 1 7 200 surfaceAttribList 2,
          Event.eglCreateContext 1 7 EGL_NO_CONTEXT
            [EGL_CONTEXT_CLIENT_VERSION, 2, EGL_NONE, EGL_NONE] 3,
          Event.eglMakeCurrent 1 2 2 3 1] } := by
  decide

/-! ## Shader and program setup -/

theorem checkGlErrorLoop_eq (pending : List GLenum) (t : Trace) :
    ∃ errs, checkGlErrorLoop pending t = t ++ errs ∧ ∀ e ∈ errs, e.isGetError = true := by
  induction pending generalizing t with
  | nil => exact ⟨[Event.glGetError 0], rfl, by simp [Event.isGetError]⟩
  | cons error rest ih =>
    unfold checkGlErrorLoop
    split_ifs with h
    · exact ⟨[Event.glGetError error], rfl, by simp [Event.isGetError]⟩
    · obtain ⟨errs, he, ha⟩ := ih (t ++ [Event.glGetError error])
      refine ⟨Event.glGetError error :: errs, by simp [he], ?_⟩
      intro e hmem
      rcases List.mem_cons.mp hmem with rfl | hmem
      · rfl
      · exact ha e hmem

theorem checkGlError_eq (D : Driver) (t : Trace) (op : String) :
    ∃ errs, checkGlError D t op = t ++ errs ∧ ∀ e ∈ errs, e.isGetError = true :=
  checkGlErrorLoop_eq _ t

theorem checkGlError_append (D : Driver) (t : Trace) (op : String) :
    checkGlError D t op = t ++ errorChecks D t := by
  obtain ⟨errs, he, _⟩ := checkGlErrorLoop_eq (D.glPendingErrors t) t
  simp [checkGlError, errorChecks, he]

theorem errorChecks_isGetError (D : Driver) (t : Trace) (e : Event)
    (h : e ∈ errorChecks D t) : e.isGetError = true := by
  obtain ⟨errs, he, ha⟩ := checkGlErrorLoop_eq (D.glPendingErrors t) t
  simp only [errorChecks, he, List.drop_left] at h
  exact ha e h

theorem loadShader_trace (D : Driver) (t : Trace) (shaderType : GLenum) (src : String) :
    ∃ issued, (loadShader D t shaderType src).2 = t ++ issued ∧
      ∀ p, Event.glDeleteProgram p ∉ issued := by
  unfold loadShader
  simp only []
  split_ifs <;> simp

/-- C4. On a driver that reports the compile status as false together with an
information log of length zero, `loadShader` returns the non-zero shader name
it created and issues no `glDeleteShader`. -/
theorem loadShader_keeps_shader_on_quiet_failure :
    loadShader quietCompileFailureDriver [] GL_VERTEX_SHADER gVertexShader =
      (1, [Event.glCreateShader GL_VERTEX_SHADER 1, Event.glShaderSource 1 gVertexShader,
        Event.glCompileShader 1, Event.glGetShaderiv 1 GL_COMPILE_STATUS (some 0),
        Event.glGetShaderiv 1 GL_INFO_LOG_LENGTH (some 0)]) := by
  decide

/-- C5. For every driver on which both shaders load and `glCreateProgram`
answers a non-zero name `p`, `createProgram` continues the transcript with
`glCreateProgram`, the attachment of the vertex shader, the attachment of the
fragment shader, `glLinkProgram` and the query of `GL_LINK_STATUS` (with only
`glGetError` calls in between).  If the status is `GL_TRUE` it returns `p`
and issues nothing further; otherwise it returns 0 and the rest of the
transcript ends with the only `glDeleteProgram p` of the whole call, whatever
the information-log length and `malloc` answer. -/
theorem createProgram_links_and_releases_on_failure (D : Driver) (t : Trace) (vs fs : String)
    (hv : (loadShader D t GL_VERTEX_SHADER vs).1 ≠ 0)
    (hf : (loadShader D (loadShader D t GL_VERTEX_SHADER vs).2 GL_FRAGMENT_SHADER fs).1 ≠ 0)
    (hp : D.glCreateProgram
      (loadShader D (loadShader D t GL_VERTEX_SHADER vs).2 GL_FRAGMENT_SHADER fs).2 ≠ 0) :
    let v := loadShader D t GL_VERTEX_SHADER vs
    let f := loadShader D v.2 GL_FRAGMENT_SHADER fs
    let p := D.glCreateProgram f.2
    let r := createProgram D t vs fs
    ∃ (errs1 errs2 tail : Trace) (status : Option GLint),
      (∀ e ∈ errs1 ++ errs2, e.isGetError = true) ∧
      status = D.glGetProgramiv
        (f.2 ++ [Event.glCreateProgram p, Event.glAttachShader p v.1] ++ errs1 ++
          [Event.glAttachShader p f.1] ++ errs2 ++ [Event.glLinkProgram p]) p GL_LINK_STATUS ∧
      r.2 = f.2 ++ [Event.glCreateProgram p, Event.glAttachShader p v.1] ++ errs1 ++
          [Event.glAttachShader p f.1] ++ errs2 ++
          [Event.glLinkProgram p, Event.glGetProgramiv p GL_LINK_STATUS status] ++ tail ∧
      ((status.getD GL_FALSE = GL_TRUE ∧ r.1 = p ∧ tail = []) ∨
        (status.getD GL_FALSE ≠ GL_TRUE ∧ r.1 = 0 ∧
          ∃ log, tail = log ++ [Event.glDeleteProgram p] ∧
            ∀ q, Event.glDeleteProgram q ∉ log)) ∧
      (r.2.drop t.length).count (Event.glDeleteProgram p) =
        if status.getD GL_FALSE = GL_TRUE then 0 else 1 := by
  obtain ⟨nv, hnv, hdv⟩ := loadShader_trace D t GL_VERTEX_SHADER vs
  obtain ⟨nf, hnf, hdf⟩ := loadShader_trace D (loadShader D t GL_VERTEX_SHADER vs).2
    GL_FRAGMENT_SHADER fs
  simp only [createProgram, if_neg hv, if_neg hf, if_pos hp]
  generalize loadShader D t GL_VERTEX_SHADER vs = v at *
  generalize loadShader D v.2 GL_FRAGMENT_SHADER fs = f at *
  generalize D.glCreateProgram f.2 = p at *
  obtain ⟨errs1, he1, ha1⟩ := checkGlError_eq D
    (f.2 ++ [Event.glCreateProgram p] ++ [Event.glAttachShader p v.1]) "glAttachShader"
  rw [he1]
  obtain ⟨errs2, he2, ha2⟩ := checkGlError_eq D
    (f.2 ++ [Event.glCreateProgram p] ++ [Event.glAttachShader p v.1] ++ errs1 ++
      [Event.glAttachShader p f.1]) "glAttachShader"
  rw [he2]
  have hc1 : errs1.count (Event.glDeleteProgram p) = 0 :=
    List.count_eq_zero.mpr fun h => by simpa [Event.isGetError] using ha1 _ h
  have hc2 : errs2.count (Event.glDeleteProgram p) = 0 :=
    List.count_eq_zero.mpr fun h => by simpa [Event.isGetError] using ha2 _ h
  have hcv : nv.count (Event.glDeleteProgram p) = 0 := List.count_eq_zero.mpr (hdv p)
  have hcf : nf.count (Event.glDeleteProgram p) = 0 := List.count_eq_zero.mpr (hdf p)
  have hall : ∀ e ∈ errs1 ++ errs2, e.isGetError = true := by
    intro e he
    rcases List.mem_append.mp he with h | h
    · exact ha1 e h
    · exact ha2 e h
  simp only [List.append_assoc, List.cons_append, List.nil_append]
  refine ⟨errs1, errs2, ?_⟩
  generalize hst : D.glGetProgramiv _ p GL_LINK_STATUS = status
  by_cases hl : status.getD GL_FALSE = GL_TRUE
  · refine ⟨[], status, hall, rfl, ?_, ?_, ?_⟩
    · simp [hl]
    · left; simp [hl]
    · simp [hl, hnf, hnv, hc1, hc2, hcv, hcf, List.count_cons]
  · generalize D.glGetProgramiv _ p GL_INFO_LOG_LENGTH = len
    generalize D.malloc _ (len.getD 0) = buf
    have hl2 : status.getD GL_FALSE ≠ GL_TRUE := hl
    simp only [if_pos hl2, if_neg hl]
    split_ifs with h1 h2
    · refine ⟨[Event.glGetProgramiv p GL_INFO_LOG_LENGTH len, Event.malloc (len.getD 0) buf,
        Event.glGetProgramInfoLog p (len.getD 0), Event.free buf, Event.glDeleteProgram p],
        status, hall, rfl, by simp, Or.inr ⟨hl, trivial, ?_⟩, ?_⟩
      · exact ⟨[Event.glGetProgramiv p GL_INFO_LOG_LENGTH len, Event.malloc (len.getD 0) buf,
          Event.glGetProgramInfoLog p (len.getD 0), Event.free buf], by simp, by simp⟩
      · simp [hnf, hnv, hc1, hc2, hcv, hcf, List.count_cons, if_neg hl]
    · refine ⟨[Event.glGetProgramiv p GL_INFO_LOG_LENGTH len, Event.malloc (len.getD 0) buf,
        Event.glDeleteProgram p],
        status, hall, rfl, by simp, Or.inr ⟨hl, trivial, ?_⟩, ?_⟩
      · exact ⟨[Event.glGetProgramiv p GL_INFO_LOG_LENGTH len, Event.malloc (len.getD 0) buf],
          by simp, by simp⟩
      · simp [hnf, hnv, hc1, hc2, hcv, hcf, List.count_cons, if_neg hl]
    · refine ⟨[Event.glGetProgramiv p GL_INFO_LOG_LENGTH len, Event.glDeleteProgram p],
        status, hall, rfl, by simp, Or.inr ⟨hl, trivial, ?_⟩, ?_⟩
      · exact ⟨[Event.glGetProgramiv p GL_INFO_LOG_LENGTH len], by simp, by simp⟩
      · simp [hnf, hnv, hc1, hc2, hcv, hcf, List.count_cons, if_neg hl]

/-- C5 at a sample input: on `linkFailureDriver` both shaders load (names 1
and 2), the program object 3 is created, linking fails with an empty log, and
the program object is deleted exactly once. -/
theorem createProgram_links_and_releases_on_failure_witness :
    sampleVertex.1 ≠ 0 ∧ sampleFragment.1 ≠ 0 ∧
    linkFailureDriver.glCreateProgram sampleFragment.2 ≠ 0 ∧
    ∃ (errs1 errs2 tail : Trace) (status : Option GLint),
      (∀ e ∈ errs1 ++ errs2, e.isGetError = true) ∧
      status = linkFailureDriver.glGetProgramiv
        (sampleFragment.2 ++ [Event.glCreateProgram 3, Event.glAttachShader 3 sampleVertex.1] ++
          errs1 ++ [Event.glAttachShader 3 sampleFragment.1] ++ errs2 ++
          [Event.glLinkProgram 3]) 3 GL_LINK_STATUS ∧
      (createProgram linkFailureDriver [] gVertexShader gFragmentShader).2 =
        sampleFragment.2 ++ [Event.glCreateProgram 3, Event.glAttachShader 3 sampleVertex.1] ++
          errs1 ++ [Event.glAttachShader 3 sampleFragment.1] ++ errs2 ++
          [Event.glLinkProgram 3, Event.glGetProgramiv 3 GL_LINK_STATUS status] ++ tail ∧
      ((status.getD GL_FALSE = GL_TRUE ∧
          (createProgram linkFailureDriver [] gVertexShader gFragmentShader).1 = 3 ∧
          tail = []) ∨
        (status.getD GL_FALSE ≠ GL_TRUE ∧
          (createProgram linkFailureDriver [] gVertexShader gFragmentShader).1 = 0 ∧
          ∃ log, tail = log ++ [Event.glDeleteProgram 3] ∧
            ∀ q, Event.glDeleteProgram q ∉ log)) ∧
      ((createProgram linkFailureDriver [] gVertexShader gFragmentShader).2.drop
          ([] : Trace).length).count (Event.glDeleteProgram 3) =
        if status.getD GL_FALSE = GL_TRUE then 0 else 1 :=
  ⟨by decide, by decide, by decide,
    createProgram_links_and_releases_on_failure linkFailureDriver [] gVertexShader
      gFragmentShader (by decide) (by decide) (by decide)⟩

/-! ## Teardown -/

/-- C6. For every record, the teardown issues `eglDestroyContext`,
`eglDestroySurface` and `eglTerminate` in that order, each only when its
handle is not the empty sentinel, and leaves all three handles at their
sentinels; running the three guarded blocks again on the result issues
nothing and changes nothing, and so does a second run of the whole teardown
block (which also finds `es_context` reset to `nullptr`). -/
theorem teardown_idempotent (c : ESContext) (t : Trace) :
    let r := releaseHandles c t
    r.2 = t ++
        (if c.eglContext ≠ EGL_NO_CONTEXT then
          [Event.eglDestroyContext c.eglDisplay c.eglContext] else []) ++
        (if c.eglSurface ≠ EGL_NO_SURFACE then
          [Event.eglDestroySurface c.eglDisplay c.eglSurface] else []) ++
        (if c.eglDisplay ≠ EGL_NO_DISPLAY then [Event.eglTerminate c.eglDisplay] else []) ∧
      r.1 = { c with eglContext := EGL_NO_CONTEXT, eglSurface := EGL_NO_SURFACE,
                     eglDisplay := EGL_NO_DISPLAY } ∧
      releaseHandles r.1 r.2 = r ∧
      teardown (some c) t = (none, r.2) ∧
      teardown (teardown (some c) t).1 (teardown (some c) t).2 = teardown (some c) t ∧
      teardown none t = (none, t) := by
  obtain ⟨w, h, hWnd, d, x, s⟩ := c
  simp only [releaseHandles, teardown]
  by_cases hx : x = 0 <;> by_cases hs : s = 0 <;> by_cases hd : d = 0 <;>
    simp [hx, hs, hd, Ne.symm, eq_comm]

/-! ## The grey cycle -/

theorem greyAfter_101 : greyAfter 101 = 0 := by decide!

theorem greyAfter_add_101 (n : Nat) : greyAfter (n + 101) = greyAfter n := by
  induction n with
  | zero => exact greyAfter_101
  | succ n ih =>
    have h : n + 1 + 101 = (n + 101) + 1 := by omega
    rw [h, greyAfter, ih, greyAfter]

theorem greyAfter_add_mul_101 (m q : Nat) : greyAfter (m + 101 * q) = greyAfter m := by
  induction q with
  | zero => rfl
  | succ q ih =>
    have h : m + 101 * (q + 1) = (m + 101 * q) + 101 := by ring
    rw [h, greyAfter_add_101, ih]

theorem greyAfter_mod (n : Nat) : greyAfter n = greyAfter (n % 101) := by
  conv_lhs => rw [← Nat.mod_add_div n 101]
  exact greyAfter_add_mul_101 _ _

theorem greyAfter_table : ∀ k : Fin 101,
    (k : ℚ) / 100 - 1 / 1000000 < greyAfter k ∧
    greyAfter k < (k : ℚ) / 100 + 1 / 1000000 ∧
    0 ≤ greyAfter k ∧ greyAfter k < 1 ∧
    (greyStep (greyAfter k) = 0 ↔ f32Add (greyAfter k) (f32Round (1 / 100)) > 1) := by
  decide!

/-- C7, the claim as stated fails: after 101 frames the level is 0 where
`(101 * 0.01) mod 1.0` is 0.01, after 100 frames it is 16777205/16777216
where `(100 * 0.01) mod 1.0` is 0, and already after one frame it is the
binary32 number 5368709/536870912 and not 0.01. -/
theorem greyAfter_not_mod_one :
    greyAfter 101 = 0 ∧ Int.fract (((101 : Nat) : ℚ) * (1 / 100)) = 1 / 100 ∧
      greyAfter 101 ≠ Int.fract (((101 : Nat) : ℚ) * (1 / 100)) ∧
    greyAfter 100 = 16777205 / 16777216 ∧ Int.fract (((100 : Nat) : ℚ) * (1 / 100)) = 0 ∧
      greyAfter 100 ≠ Int.fract (((100 : Nat) : ℚ) * (1 / 100)) ∧
    greyAfter 1 = 5368709 / 536870912 ∧
      greyAfter 1 ≠ Int.fract (((1 : Nat) : ℚ) * (1 / 100)) := by
  decide!

/-- C7, amended. For every frame count `n`, the grey level after `n` binary32
updates starting from 0 is the level after `n mod 101` updates (the cycle has
101 frames), differs from `(n mod 101) * 0.01` by less than `10⁻⁶`, and lies
in the half-open interval `[0, 1)`. -/
theorem greyAfter_cycle (n : Nat) :
    greyAfter n = greyAfter (n % 101) ∧
      ((n % 101 : Nat) : ℚ) * (1 / 100) - 1 / 1000000 < greyAfter n ∧
      greyAfter n < ((n % 101 : Nat) : ℚ) * (1 / 100) + 1 / 1000000 ∧
      0 ≤ greyAfter n ∧ greyAfter n < 1 := by
  have hlt : n % 101 < 101 := Nat.mod_lt _ (by norm_num)
  obtain ⟨h1, h2, h3, h4, _⟩ := greyAfter_table ⟨n % 101, hlt⟩
  simp only [] at h1 h2 h3 h4
  rw [greyAfter_mod n]
  refine ⟨by simp, ?_, ?_, h3, h4⟩
  · rw [mul_one_div]; exact h1
  · rw [mul_one_div]; exact h2

theorem isFrameMark_of_isGetError (e : Event) (h : e.isGetError = true) :
    e.isFrameMark = false := by
  cases e <;> simp_all [Event.isGetError, Event.isFrameMark]

theorem filter_isFrameMark_errors (errs : Trace) (h : ∀ e ∈ errs, e.isGetError = true) :
    errs.filter Event.isFrameMark = [] := by
  rw [List.filter_eq_nil_iff]
  intro e he
  simp [isFrameMark_of_isGetError e (h e he)]

theorem filter_isFrameMark_errorChecks (D : Driver) (t : Trace) :
    (errorChecks D t).filter Event.isFrameMark = [] :=
  filter_isFrameMark_errors _ (errorChecks_isGetError D t)

theorem renderFrame_marks (D : Driver) (g : Globals) (t : Trace) :
    ∃ issued, renderFrame D g t = ({ g with grey := greyStep g.grey }, t ++ issued) ∧
      issued.filter Event.isFrameMark = [Event.glDrawArrays GL_TRIANGLES 0 3] ∧
      Event.glClearColor (greyStep g.grey) (greyStep g.grey) (greyStep g.grey) 1 ∈ issued := by
  simp only [renderFrame, checkGlError_append, List.append_assoc]
  refine ⟨_, rfl, ?_, ?_⟩
  · simp [List.filter_append, List.filter_cons, filter_isFrameMark_errorChecks,
      Event.isFrameMark]
  · simp

theorem pollEvents_eq (batch : List Nat) (done : Int) (t : Trace) :
    pollEvents batch done t =
      (if batch.any isQuitRequest then 1 else done,
        t ++ batch.map (Event.SDL_PollEvent 1) ++ [Event.SDL_PollEvent 0 0]) := by
  induction batch generalizing done t with
  | nil => simp [pollEvents]
  | cons ev rest ih =>
    rw [pollEvents]
    simp only [ih]
    by_cases h : ev = SDL_QUIT ∨ ev = SDL_KEYDOWN
    · have hq : isQuitRequest ev = true := by
        simpa [isQuitRequest] using h
      simp [h, hq]
    · have hq : isQuitRequest ev = false := by
        simpa [isQuitRequest] using h
      simp [h, hq]

theorem frameLoop_step (D : Driver) (batches : Nat → List Nat) (ctx : ESContext)
    (fuel i : Nat) (g : Globals) (t : Trace) :
    ∃ issued, issued.filter Event.isFrameMark = iterationMarks ctx (batches i) ∧
      frameLoop D batches ctx (fuel + 1) i 0 g t =
        frameLoop D batches ctx fuel (i + 1) (if (batches i).any isQuitRequest then 1 else 0)
          { g with grey := greyStep g.grey } (t ++ issued) := by
  obtain ⟨r, hr, hm, _⟩ := renderFrame_marks D g t
  refine ⟨r ++ [Event.eglSwapBuffers ctx.eglDisplay ctx.eglSurface] ++
    (batches i).map (Event.SDL_PollEvent 1) ++ [Event.SDL_PollEvent 0 0], ?_, ?_⟩
  · simp [List.filter_append, hm, iterationMarks, Event.isFrameMark, List.filter_map,
      Function.comp_def]
  · rw [frameLoop]
    simp only [hr, pollEvents_eq, List.append_assoc]
    simp

theorem frameLoop_run (D : Driver) (batches : Nat → List Nat) (ctx : ESContext) (k : Nat) :
    ∀ (i : Nat) (g : Globals) (t : Trace) (extra : Nat),
      (batches (i + k)).any isQuitRequest = true →
      (∀ j < k, (batches (i + j)).any isQuitRequest = false) →
      (∃ issued,
        frameLoop D batches ctx (k + 2 + extra) i 0 g t =
          some (i + k + 1, { g with grey := greyStep^[k + 1] g.grey }, t ++ issued) ∧
        issued.filter Event.isFrameMark =
          ((List.range (k + 1)).map fun j => iterationMarks ctx (batches (i + j))).flatten) ∧
      ∀ fuel, fuel ≤ k + 1 → frameLoop D batches ctx fuel i 0 g t = none := by
  induction k with
  | zero =>
    intro i g t extra hk _
    refine ⟨?_, ?_⟩
    · obtain ⟨issued, hm, hs⟩ := frameLoop_step D batches ctx (1 + extra) i g t
      refine ⟨issued, ?_, ?_⟩
      · have : 0 + 2 + extra = (1 + extra) + 1 := by omega
        rw [this, hs]
        simp only [Nat.add_zero] at hk
        rw [hk, if_pos rfl, show 1 + extra = extra + 1 by omega, frameLoop]
        simp
      · rw [hm]; simp [List.range_succ]
    · intro fuel hfuel
      rcases fuel with _ | fuel
      · rfl
      · obtain rfl : fuel = 0 := by omega
        obtain ⟨issued, _, hs⟩ := frameLoop_step D batches ctx 0 i g t
        rw [hs]
        rfl
  | succ k ih =>
    intro i g t extra hk hmin
    have h0 : (batches i).any isQuitRequest = false := by simpa using hmin 0 (by omega)
    have hk' : (batches (i + 1 + k)).any isQuitRequest = true := by
      rw [show i + 1 + k = i + (k + 1) by omega]; exact hk
    have hmin' : ∀ j < k, (batches (i + 1 + j)).any isQuitRequest = false := by
      intro j hj
      rw [show i + 1 + j = i + (j + 1) by omega]
      exact hmin (j + 1) (by omega)
    refine ⟨?_, ?_⟩
    · obtain ⟨issued, hm, hs⟩ := frameLoop_step D batches ctx (k + 2 + extra) i g t
      obtain ⟨⟨rest, hrun, hmarks⟩, _⟩ := ih (i + 1) { g with grey := greyStep g.grey }
        (t ++ issued) extra hk' hmin'
      refine ⟨issued ++ rest, ?_, ?_⟩
      · have : k + 1 + 2 + extra = (k + 2 + extra) + 1 := by omega
        rw [this, hs, h0]
        simp only [Bool.false_eq_true, if_false]
        rw [hrun]
        simp only [Function.iterate_succ, Function.comp_apply, List.append_assoc]
        rw [show i + 1 + k + 1 = i + (k + 1) + 1 by omega]
      · rw [List.filter_append, hm, hmarks, List.range_succ_eq_map (k + 1)]
        simp [List.map_map, Function.comp_def, Nat.add_assoc, Nat.add_comm 1]
    · intro fuel hfuel
      rcases fuel with _ | fuel
      · rfl
      · obtain ⟨issued, _, hs⟩ := frameLoop_step D batches ctx fuel i g t
        rw [hs, h0]
        simp only [Bool.false_eq_true, if_false]
        exact (ih (i + 1) _ _ 0 hk' hmin').2 fuel (by omega)

/-- C8. On a driver where `glCreateProgram` answers 0, `setupGraphics` returns
`false` and leaves `gProgram` at 0, yet `main` goes on exactly as on the
working driver (where `setupGraphics` returns `true`): it enters the render
loop, draws and presents a frame with program 0 in use, polls the events,
tears down and exits with code 0. -/
theorem main_ignores_setupGraphics_result :
    ((main noProgramDriver quitAtOnce 2).map fun r =>
        (r.outcome, r.setupResult, r.frames, r.globals.gProgram)) =
      some (Outcome.exited 0, some false, 1, 0) ∧
    ((main noProgramDriver quitAtOnce 2).map fun r =>
        (r.trace.filter Event.isFrameMark, decide (Event.glUseProgram 0 ∈ r.trace))) =
      some ([Event.glDrawArrays GL_TRIANGLES 0 3, Event.eglSwapBuffers 1 2,
        Event.SDL_PollEvent 1 SDL_QUIT, Event.SDL_PollEvent 0 0], true) ∧
    ((main workingDriver quitAtOnce 2).map fun r =>
        (r.outcome, r.setupResult, r.frames, r.globals.gProgram)) =
      some (Outcome.exited 0, some true, 1, 3) ∧
    ((main workingDriver quitAtOnce 2).map fun r =>
        (r.trace.filter Event.isFrameMark, decide (Event.glUseProgram 3 ∈ r.trace))) =
      some ([Event.glDrawArrays GL_TRIANGLES 0 3, Event.eglSwapBuffers 1 2,
        Event.SDL_PollEvent 1 SDL_QUIT, Event.SDL_PollEvent 0 0], true) := by
  refine ⟨?_, ?_, ?_, ?_⟩ <;> decide

/-- C10. For every driver and every sequence of per-iteration event batches
in which batch `k` is the first to hold a quit or key-down event, the render
loop started with a cleared termination flag ends after exactly `k + 1`
iterations (given `k + 2` or more tests of its condition, and not with
fewer); its transcript, reduced to draw, swap and poll calls, is for each of
the iterations `0 .. k` in turn one draw, one swap, one poll per pending
event of that batch and the final empty poll, so every iteration renders and
presents before it polls, drains its whole batch, and the batches before `k`
(holding only other event types) do not end the loop. -/
theorem frameLoop_stops_after_first_quit_batch (D : Driver) (batches : Nat → List Nat)
    (ctx : ESContext) (g : Globals) (t : Trace) (k extra : Nat)
    (hk : (batches k).any isQuitRequest = true)
    (hmin : ∀ j < k, (batches j).any isQuitRequest = false) :
    (∃ issued,
      frameLoop D batches ctx (k + 2 + extra) 0 0 g t =
        some (k + 1, { g with grey := greyStep^[k + 1] g.grey }, t ++ issued) ∧
      issued.filter Event.isFrameMark =
        ((List.range (k + 1)).map fun j => iterationMarks ctx (batches j)).flatten) ∧
    ∀ fuel, fuel ≤ k + 1 → frameLoop D batches ctx fuel 0 0 g t = none := by
  have h := frameLoop_run D batches ctx k 0 g t extra (by simpa using hk)
    (by simpa using hmin)
  simpa using h

/-- C10 at a sample input: the first batch holds a mouse-motion and a window
event, the second a key press followed by a mouse motion, so two frames are
rendered. -/
theorem frameLoop_stops_after_first_quit_batch_witness :
    (sampleBatches 1).any isQuitRequest = true ∧
    (∀ j < 1, (sampleBatches j).any isQuitRequest = false) ∧
    ((∃ issued,
      frameLoop workingDriver sampleBatches ESContext.fresh (1 + 2 + 0) 0 0 Globals.initial [] =
        some (1 + 1, { Globals.initial with grey := greyStep^[1 + 1] Globals.initial.grey },
          [] ++ issued) ∧
      issued.filter Event.isFrameMark =
        ((List.range (1 + 1)).map fun j =>
          iterationMarks ESContext.fresh (sampleBatches j)).flatten) ∧
    ∀ fuel, fuel ≤ 1 + 1 →
      frameLoop workingDriver sampleBatches ESContext.fresh fuel 0 0 Globals.initial [] = none) :=
  ⟨by decide, by decide,
    frameLoop_stops_after_first_quit_batch workingDriver sampleBatches ESContext.fresh
      Globals.initial [] 1 0 (by decide) (by decide)⟩

end Gles2Sdl2
